import Mathlib

/-!
Verification of the outbound call orchestrator and state manager of the
voice-agent repository.

The embedded code is `src/start_calls.py` (CallManager, the per-appointment
body of `main`, the backup notifiers) and `src/state_manager.py`
(StateManager: cache, event log, distributed lock, pub/sub, metrics).

Modelling conventions:
  * Python dicts holding appointment / call-result data become structures.
  * `datetime.now().isoformat()` timestamps are passed in as an explicit
    `now : String` argument (ambient wall-clock time is not modelled).
  * The external LiveKit room provider, the call-placement provider and the
    notification channels are parameters of the embedded functions: an
    attempt-indexed function describing, for each invocation, whether the
    external call returns normally or raises (with which message).
  * Python exceptions are values of `Err` inside `Except`, and a `try/except`
    that swallows an exception is a total function that inspects the value.
  * Redis is modelled as `RedisModel`: a key-value map, a map of streams,
    and a subscriber count for pub/sub.  The `xadd(..., maxlen=1000)` call
    leaves redis-py's `approximate` flag at its default `True`, issuing
    `XADD ... MAXLEN ~ 1000`: the server trims lazily (whole macro-nodes
    only) and guarantees only that at least 1000 entries are retained, so
    the embedding takes the amount actually trimmed at each call as an
    explicit argument bounded by that guarantee.
-/

namespace VoiceAgent

/-- An appointment record, with the fields of the entries of
`FAKE_APPOINTMENTS_DB` in `start_calls.py` (lines 38-57). -/
structure Appointment where
  appointment_id : String
  customer_name : String
  phone : String
  email : String
  time : String
  date : String
  status : String
deriving Repr, DecidableEq

/-- The two records of `FAKE_APPOINTMENTS_DB` (`start_calls.py` lines 38-57). -/
def FAKE_APPOINTMENTS_DB : List Appointment :=
  [ { appointment_id := "randevu_101", customer_name := "Ahmet Yılmaz",
      phone := "+905551112233", email := "ahmet@example.com",
      time := "14:30", date := "2025-10-05", status := "Beklemede" },
    { appointment_id := "randevu_102", customer_name := "Zeynep Kaya",
      phone := "+905554445566", email := "zeynep@example.com",
      time := "16:00", date := "2025-10-05", status := "Beklemede" } ]

/-- The result dictionary produced by `place_call_with_retry` and by the
failure paths of `main` (`start_calls.py` lines 224-229, 242-248, 428-434).
The `timestamp` field (wall-clock) is not carried. -/
structure CallResult where
  success : Bool
  appointment_id : String
  attempts : Nat
  error : Option String
deriving Repr, DecidableEq

/-- `CallManager.max_retries` (`start_calls.py` line 69). -/
def maxRetriesDefault : Nat := 3

/-- `CallManager.retry_delay`, seconds (`start_calls.py` line 70). -/
def retryDelayDefault : Nat := 5

/-- One external call-placement attempt, indexed by the 1-based attempt
number: `some b` models `place_call_simulation` returning `b`, `none` models
it raising an exception (caught at `start_calls.py` line 235). -/
abbrev CallStub := Nat → Option Bool

/-- The loop body of `place_call_with_retry` (`start_calls.py` lines
215-238): `remaining` attempts are left and the next attempt has 1-based
index `attempt`.  A `some true` outcome short-circuits with the attempt
count used; `some false` and `none` (an exception, caught) both fall
through to the next attempt.  The `retry_delay` sleeps do not affect the
returned value. -/
def placeCallAux (stub : CallStub) (apptId : String) (maxRetries : Nat) :
    Nat → Nat → CallResult
  | 0, _ =>
    { success := false, appointment_id := apptId, attempts := maxRetries,
      error := some "Max retry exceeded" }
  | remaining + 1, attempt =>
    match stub attempt with
    | some true =>
      { success := true, appointment_id := apptId, attempts := attempt,
        error := none }
    | _ => placeCallAux stub apptId maxRetries remaining (attempt + 1)

/-- `CallManager.place_call_with_retry` (`start_calls.py` lines 202-248):
attempts run from 1 to `maxRetries`; exhaustion returns the failure record
with `attempts = maxRetries` and `error = "Max retry exceeded"` (lines
242-248).  Totality of this function embeds the fact that the Python
method never raises: every stub exception is caught inside the loop. -/
def place_call_with_retry (stub : CallStub) (apptId : String)
    (maxRetries : Nat) : CallResult :=
  placeCallAux stub apptId maxRetries maxRetries 1

/-- Substring containment, the Python `needle in hay` test on strings. -/
def strContains (hay needle : String) : Bool :=
  decide (needle.data <:+: hay.data)

/-- Python `str.lower()` (ASCII case folding, character by character). -/
def strToLower (s : String) : String :=
  ⟨s.data.map Char.toLower⟩

/-- The room metadata dictionary built in `create_room_for_appointment`
(`start_calls.py` lines 89-94), as the ordered key/value list of the dict
literal; `now` stands for `datetime.now().isoformat()`. -/
def roomMetadataPairs (a : Appointment) (now : String) :
    List (String × String) :=
  [ ("appointment_id", a.appointment_id),
    ("customer_name", a.customer_name),
    ("task", "confirm_appointment"),
    ("created_at", now) ]

/-- Outcome of one invocation of the external room provider
(`lk_api.room.create_room`): `ok` is a normal return, `err msg` is a raised
exception whose `str(e)` is `msg`. -/
inductive ProviderOutcome where
  | ok : ProviderOutcome
  | err : String → ProviderOutcome
deriving Repr, DecidableEq

/-- A room provider: invocation number (1-based), requested room name and
metadata pairs, to the outcome of that invocation. -/
abbrev RoomProvider := Nat → String → List (String × String) → ProviderOutcome

/-- `CallManager.create_room_for_appointment` (`start_calls.py` lines
72-120).  The room name is `confirmation_call_<appointment_id>` (line 85);
the provider is invoked exactly once (invocation index 1, line 103); on an
exception whose lowercased message contains `"already exists"` the room
name is returned as success (lines 117-119), any other exception yields
`none` (line 120). -/
def create_room_for_appointment (provider : RoomProvider) (a : Appointment)
    (now : String) : Option String :=
  let room_name := "confirmation_call_" ++ a.appointment_id
  match provider 1 room_name (roomMetadataPairs a now) with
  | .ok => some room_name
  | .err e =>
    if strContains (strToLower e) "already exists" then some room_name
    else none

/-- Observable events of one per-appointment pass of `main`: a call result
recorded by `save_call_result`, and a backup-notifier invocation per
channel.  The Boolean on a notifier invocation records whether that
notifier returned normally (`true`) or raised (`false`); either way
`asyncio.gather(..., return_exceptions=True)` swallows the outcome. -/
inductive OrchEvent where
  | recorded : CallResult → OrchEvent
  | smsInvoked : String → Bool → OrchEvent
  | emailInvoked : String → Bool → OrchEvent
deriving Repr, DecidableEq

/-- The per-appointment body of `main` (`start_calls.py` lines 422-470), as
the ordered list of observable events: room creation failure records a
failure result with `attempts = 0` and error `"Room creation failed"` and
moves on (lines 426-435, note: without notifying); otherwise the call is
placed with retries and its result recorded (lines 441-442), and exactly
when that result is a failure, the SMS and email backups are dispatched
(lines 445-453) after the result is recorded.  `smsOk` / `emailOk` say
whether each notifier returns normally; a raising notifier is swallowed by
`return_exceptions=True`, so the function is total either way. -/
def process_appointment (provider : RoomProvider) (stub : CallStub)
    (smsOk emailOk : Bool) (a : Appointment) (now : String) :
    List OrchEvent :=
  match create_room_for_appointment provider a now with
  | none =>
    [ .recorded { success := false, appointment_id := a.appointment_id,
                  attempts := 0, error := some "Room creation failed" } ]
  | some _room =>
    let result := place_call_with_retry stub a.appointment_id maxRetriesDefault
    if result.success then
      [ .recorded result ]
    else
      [ .recorded result,
        .smsInvoked a.phone smsOk,
        .emailInvoked a.email emailOk ]

/-- A Python exception value, distinguishing the exception classes the
embedded code raises: `RuntimeError` (from `_ensure_connected`) and
`TimeoutError` (from `StateManager.lock`). -/
inductive Err where
  | runtimeError : String → Err
  | timeoutError : String → Err
deriving Repr, DecidableEq

/-- One entry of a conversation stream, as built by
`log_conversation_event` (`state_manager.py` lines 182-186): the
`data` field carries the `json.dumps` serialisation opaquely, `timestamp`
the `datetime.now().isoformat()` value passed in as `now`. -/
structure StreamEntry where
  event_type : String
  data : String
  timestamp : String
deriving Repr, DecidableEq

/-- `XADD key entry MAXLEN ~ cap` - the command issued by redis-py's
`xadd(key, entry, maxlen=cap)` with the `approximate` parameter left at
its default `True`, as at `state_manager.py` lines 189-193.  The entry is
appended; the server then trims `trim` of the oldest entries, where
`trim` is chosen by the server (it trims lazily, whole macro-nodes at a
time, and frequently trims nothing), constrained only by the documented
guarantee that at least `cap` entries are retained whenever the stream
holds that many - hence the `min` with the excess over `cap`.  Exact
trimming (`MAXLEN cap`, `approximate=False`) is NOT what the source
requests. -/
def xadd_maxlen_approx (cap trim : Nat) (s : List StreamEntry)
    (e : StreamEntry) : List StreamEntry :=
  let t := s ++ [e]
  t.drop (min trim (t.length - cap))

/-- The Redis instance visible to `StateManager`: the string key space
(`SETEX`/`GET`/`DEL`/`INCRBY`), the streams key space (`XADD`/`XREVRANGE`),
and the number of subscribers of the `appointment_updates` channel.
Key expiry (TTLs) is not modelled; no claim depends on it. -/
structure RedisModel where
  kv : String → Option String
  streams : String → List StreamEntry
  subscriberCount : Nat

/-- The state of a `StateManager` instance: the `_connected` flag
(`state_manager.py` line 66) and the backing Redis. `cache_ttl`
(line 65, default 3600) is carried but expiry is not modelled. -/
structure SMState where
  connected : Bool
  redis : RedisModel
  cache_ttl : Nat

/-- The message of the `RuntimeError` raised by `_ensure_connected`
(`state_manager.py` line 99). -/
def ensureConnectedMsg : String :=
  "StateManager not connected. Call connect() first."

/-- The `RuntimeError` outcome of `_ensure_connected` when `_connected`
is false (`state_manager.py` lines 96-99). -/
def notConnectedErr {α : Type} : Except Err α :=
  .error (.runtimeError ensureConnectedMsg)

/-- `StateManager.cache_appointment` (`state_manager.py` lines 103-122):
guard, then `SETEX appointment:<id> cache_ttl <serialised data>`.  `data`
is the `json.dumps` serialisation, carried opaquely. -/
def cache_appointment (st : SMState) (appointment_id : String)
    (data : String) : Except Err Unit × SMState :=
  if st.connected then
    let cache_key := "appointment:" ++ appointment_id
    (.ok (),
     { st with redis :=
        { st.redis with kv := Function.update st.redis.kv cache_key (some data) } })
  else (notConnectedErr, st)

/-- `StateManager.get_cached_appointment` (`state_manager.py` lines
124-146): guard, then `GET appointment:<id>`; `none` on a miss. -/
def get_cached_appointment (st : SMState) (appointment_id : String) :
    Except Err (Option String) × SMState :=
  if st.connected then
    (.ok (st.redis.kv ("appointment:" ++ appointment_id)), st)
  else (notConnectedErr, st)

/-- `StateManager.invalidate_appointment` (`state_manager.py` lines
148-158): guard, then `DEL appointment:<id>`. -/
def invalidate_appointment (st : SMState) (appointment_id : String) :
    Except Err Unit × SMState :=
  if st.connected then
    (.ok (),
     { st with redis :=
        { st.redis with
          kv := Function.update st.redis.kv ("appointment:" ++ appointment_id) none } })
  else (notConnectedErr, st)

/-- `StateManager.log_conversation_event` (`state_manager.py` lines
162-196): guard, then `xadd(conversation:<id>, {event_type, data, now},
maxlen=1000)` - which, with redis-py's default `approximate=True`, is
`XADD ... MAXLEN ~ 1000`, approximate lazy trimming.  `trim` is the
number of oldest entries the server actually trims at this call (0 when
its lazy macro-node trimming does not fire).  The returned stream-entry
id is abstracted to the position (length after the append) of the new
entry. -/
def log_conversation_event (st : SMState) (appointment_id : String)
    (event_type : String) (data : String) (now : String) (trim : Nat) :
    Except Err Nat × SMState :=
  if st.connected then
    let stream_key := "conversation:" ++ appointment_id
    let entry : StreamEntry :=
      { event_type := event_type, data := data, timestamp := now }
    let newStream :=
      xadd_maxlen_approx 1000 trim (st.redis.streams stream_key) entry
    (.ok newStream.length,
     { st with redis :=
        { st.redis with
          streams := Function.update st.redis.streams stream_key newStream } })
  else (notConnectedErr, st)

/-- `StateManager.get_conversation_events` (`state_manager.py` lines
198-229): guard, then `XREVRANGE` of the last `count` entries (newest
first) followed by `list(reversed(events))`, so the most recent `count`
entries are returned in chronological order.  The per-entry dict
re-packaging (id / `json.loads`) preserves count and order and is
abstracted to the entries themselves. -/
def get_conversation_events (st : SMState) (appointment_id : String)
    (count : Nat) : Except Err (List StreamEntry) × SMState :=
  if st.connected then
    let stream_key := "conversation:" ++ appointment_id
    let entries := (st.redis.streams stream_key).reverse.take count
    (.ok entries.reverse, st)
  else (notConnectedErr, st)

/-- The default of the `timeout` parameter of `StateManager.lock`,
seconds (`state_manager.py` line 237: `timeout: float = 10.0`). -/
def lockDefaultTimeout : Nat := 10

/-- Events of one use of the `StateManager.lock` context manager, for the
lock key `lock:<resource>`. `releaseSwallowed` is a release that raised
(for instance because the lock had already expired server-side) and was
swallowed by the bare `except` (`state_manager.py` lines 265-266). -/
inductive LockEvent where
  | acquired : String → LockEvent
  | releaseAttempted : String → LockEvent
  | releaseSucceeded : String → LockEvent
  | releaseSwallowed : String → LockEvent
deriving Repr, DecidableEq

/-- `StateManager.lock` (`state_manager.py` lines 233-266) wrapped around
a guarded block `body`: guard, then `Lock(redis, "lock:"+resource)` is
acquired with `blocking_timeout = timeout`; failure to acquire raises
`TimeoutError` (line 258).  `acquireOk` says whether acquisition succeeded
within the bounded wait; `releaseRaises` whether `lock.release()` raises
(for example on an already-expired lock).  The `finally` block attempts
the release on EVERY path out of the `try` - after the body completes or
raises, and even when acquisition itself timed out - and swallows any
release exception (lines 261-266).  The body's own effects on shared
state are outside this model; its outcome is the `Except` value `body`. -/
def lockCM {α : Type} (st : SMState) (resource : String) (acquireOk : Bool)
    (releaseRaises : Bool) (body : Except Err α) :
    Except Err α × SMState × List LockEvent :=
  if st.connected then
    let lock_key := "lock:" ++ resource
    if acquireOk then
      (body, st,
       [ .acquired lock_key, .releaseAttempted lock_key,
         if releaseRaises then .releaseSwallowed lock_key
         else .releaseSucceeded lock_key ])
    else
      (.error (.timeoutError ("Could not acquire lock: " ++ resource)), st,
       [ .releaseAttempted lock_key, .releaseSwallowed lock_key ])
  else (notConnectedErr, st, [])

/-- `StateManager.publish_status_update` (`state_manager.py` lines
270-297): guard, then `PUBLISH appointment_updates <json>`, returning the
subscriber count.  The message payload is not persisted anywhere. -/
def publish_status_update (st : SMState) (appointment_id : String)
    (new_status : String) (changed_by : String) : Except Err Nat × SMState :=
  if st.connected then
    (.ok st.redis.subscriberCount, st)
  else (notConnectedErr, st)

/-- `StateManager.increment_call_metric` (`state_manager.py` lines
301-318): guard, then `INCRBY metrics:calls:<metric> value`, returning
the new counter value; an absent key counts from 0. -/
def increment_call_metric (st : SMState) (metric : String) (value : Int) :
    Except Err Int × SMState :=
  if st.connected then
    let key := "metrics:calls:" ++ metric
    let old := ((st.redis.kv key).bind String.toInt?).getD 0
    let newVal := old + value
    (.ok newVal,
     { st with redis :=
        { st.redis with
          kv := Function.update st.redis.kv key (some (toString newVal)) } })
  else (notConnectedErr, st)

/-- The fixed metric-name set of `get_call_metrics`
(`state_manager.py` line 330). -/
def metricNames : List String :=
  ["confirmed", "cancelled", "rescheduled", "no_response", "total"]

/-- `StateManager.get_call_metrics` (`state_manager.py` lines 320-337):
guard, then read each fixed counter, absent counters as 0. -/
def get_call_metrics (st : SMState) :
    Except Err (List (String × Int)) × SMState :=
  if st.connected then
    (.ok (metricNames.map fun m =>
       (m, ((st.redis.kv ("metrics:calls:" ++ m)).bind String.toInt?).getD 0)),
     st)
  else (notConnectedErr, st)

/-- The conversation stream of an appointment inside a state. -/
def conversationStream (st : SMState) (appointment_id : String) :
    List StreamEntry :=
  st.redis.streams ("conversation:" ++ appointment_id)

/-- Iterated `log_conversation_event` for one appointment: the state
after appending each `(event_type, data, now, trim)` tuple in order,
where `trim` is the amount the server lazily trims at that call. -/
def logMany (st : SMState) (appointment_id : String)
    (es : List (String × String × String × Nat)) : SMState :=
  es.foldl
    (fun s e =>
      (log_conversation_event s appointment_id e.1 e.2.1 e.2.2.1 e.2.2.2).2)
    st

/-- Modelled from the spec: the lock-acquiring `processAppointment`
variant of the orchestrator ("the two `start_calls.py` variants", spec
section 2) is not among the files under `src`; only the simulation variant
and `StateManager.lock` itself are.  Spec section 4.1 steps 2-3 and the
`StateManager.lock` docstring (`async with state.lock("call:<id>"):` around
the call placement) describe the missing variant: per appointment id, a
worker first requests the lock scoped to `call:<appointment_id>`, places
the call only while holding it, and releases it afterwards.  Phases of one
worker for one fixed appointment id. -/
inductive WorkerPhase where
  | idle : WorkerPhase
  | waiting : WorkerPhase
  | placing : WorkerPhase
  | done : WorkerPhase
deriving Repr, DecidableEq

/-- Modelled from the spec: joint state of two orchestration workers
running `processAppointment` concurrently for the same appointment id,
together with the holder of the distributed lock scoped to that id
(`none` = free; the backing lock service guarantees at most one holder,
spec section 4.2). -/
structure OrchSys where
  phase : Fin 2 → WorkerPhase
  holder : Option (Fin 2)

/-- Modelled from the spec: interleaved steps of the two workers.  A
worker enters its call-placement attempt window (`placing`, covering the
whole retry loop of `place_call_with_retry`) only by acquiring the free
lock, and frees the lock when it leaves the window. -/
inductive OrchStep : OrchSys → OrchSys → Prop where
  | request (s : OrchSys) (i : Fin 2) :
      s.phase i = .idle →
      OrchStep s { s with phase := Function.update s.phase i .waiting }
  | acquire (s : OrchSys) (i : Fin 2) :
      s.phase i = .waiting → s.holder = none →
      OrchStep s { phase := Function.update s.phase i .placing, holder := some i }
  | release (s : OrchSys) (i : Fin 2) :
      s.phase i = .placing → s.holder = some i →
      OrchStep s { phase := Function.update s.phase i .done, holder := none }

/-- Both workers idle, lock free. -/
def orchInit : OrchSys := { phase := fun _ => .idle, holder := none }

/-- States reachable by interleaving the two workers from the initial
state. -/
inductive OrchReachable : OrchSys → Prop where
  | init : OrchReachable orchInit
  | step {s t : OrchSys} : OrchReachable s → OrchStep s t → OrchReachable t

/-- Predicate: an event is an SMS backup invocation. -/
def isSmsEvent : OrchEvent → Bool
  | .smsInvoked _ _ => true
  | _ => false

/-- Predicate: an event is an email backup invocation. -/
def isEmailEvent : OrchEvent → Bool
  | .emailInvoked _ _ => true
  | _ => false

/-- Predicate: an event is a recorded call result. -/
def isRecordedEvent : OrchEvent → Bool
  | .recorded _ => true
  | _ => false

/-- Predicate: an event records a failure result. -/
def isFailureRecord : OrchEvent → Bool
  | .recorded r => !r.success
  | _ => false

/-- Following the amended claim C3's words: the pass reached call placement
(room creation returned a name) and the placed call's result is a
failure.  Compared against the trace of `process_appointment`. -/
def callPlacementFailed (provider : RoomProvider) (stub : CallStub)
    (a : Appointment) (now : String) : Bool :=
  (create_room_for_appointment provider a now).isSome &&
    !(place_call_with_retry stub a.appointment_id maxRetriesDefault).success

/-- The first record of `FAKE_APPOINTMENTS_DB`, used as the concrete
appointment of witnesses and counterexamples. -/
def sampleAppointment : Appointment :=
  { appointment_id := "randevu_101", customer_name := "Ahmet Yılmaz",
    phone := "+905551112233", email := "ahmet@example.com",
    time := "14:30", date := "2025-10-05", status := "Beklemede" }

/-- An empty Redis instance. -/
def emptyRedis : RedisModel :=
  { kv := fun _ => none, streams := fun _ => [], subscriberCount := 0 }

/-- A `StateManager` after a successful `connect()`, on an empty Redis. -/
def connectedState : SMState :=
  { connected := true, redis := emptyRedis, cache_ttl := 3600 }

/-- A `StateManager` before `connect()` (or after `disconnect()`). -/
def disconnectedState : SMState :=
  { connected := false, redis := emptyRedis, cache_ttl := 3600 }

theorem placeCallAux_first_success (stub : CallStub) (apptId : String)
    (maxRetries : Nat) :
    ∀ remaining attempt k : Nat, attempt ≤ k → k < attempt + remaining →
      stub k = some true →
      (∀ j, attempt ≤ j → j < k → stub j ≠ some true) →
      placeCallAux stub apptId maxRetries remaining attempt =
        { success := true, appointment_id := apptId, attempts := k,
          error := none } := by
  intro remaining
  induction remaining with
  | zero => intro attempt k h1 h2 _ _; omega
  | succ m ih =>
    intro attempt k h1 h2 hk hb
    by_cases he : attempt = k
    · subst he
      simp [placeCallAux, hk]
    · have hlt : attempt < k := lt_of_le_of_ne h1 he
      have hne : stub attempt ≠ some true := hb attempt le_rfl hlt
      cases hsa : stub attempt with
      | none =>
        simp only [placeCallAux, hsa]
        exact ih (attempt + 1) k (by omega) (by omega) hk
          (fun j hj1 hj2 => hb j (by omega) hj2)
      | some b =>
        cases b with
        | true => exact absurd hsa hne
        | false =>
          simp only [placeCallAux, hsa]
          exact ih (attempt + 1) k (by omega) (by omega) hk
            (fun j hj1 hj2 => hb j (by omega) hj2)

theorem placeCallAux_exhaust (stub : CallStub) (apptId : String)
    (maxRetries : Nat) :
    ∀ remaining attempt : Nat,
      (∀ j, attempt ≤ j → j < attempt + remaining → stub j ≠ some true) →
      placeCallAux stub apptId maxRetries remaining attempt =
        { success := false, appointment_id := apptId, attempts := maxRetries,
          error := some "Max retry exceeded" } := by
  intro remaining
  induction remaining with
  | zero => intro attempt _; rfl
  | succ m ih =>
    intro attempt hb
    have hne : stub attempt ≠ some true := hb attempt le_rfl (by omega)
    cases hsa : stub attempt with
    | none =>
      simp only [placeCallAux, hsa]
      exact ih (attempt + 1) (fun j hj1 hj2 => hb j (by omega) (by omega))
    | some b =>
      cases b with
      | true => exact absurd hsa hne
      | false =>
        simp only [placeCallAux, hsa]
        exact ih (attempt + 1) (fun j hj1 hj2 => hb j (by omega) (by omega))

theorem xadd_maxlen_approx_no_trim (cap : Nat) (s : List StreamEntry)
    (e : StreamEntry) : xadd_maxlen_approx cap 0 s e = s ++ [e] := by
  simp [xadd_maxlen_approx]

theorem log_event_stream (st : SMState) (hc : st.connected = true)
    (id ty data now : String) (trim : Nat) :
    (log_conversation_event st id ty data now trim).2.connected = true ∧
    conversationStream (log_conversation_event st id ty data now trim).2 id =
      xadd_maxlen_approx 1000 trim (conversationStream st id)
        { event_type := ty, data := data, timestamp := now } := by
  constructor
  · simp [log_conversation_event, hc]
  · simp [log_conversation_event, hc, conversationStream]

theorem logMany_no_trim (id : String) :
    ∀ (es : List (String × String × String × Nat)) (st : SMState),
      st.connected = true → (∀ e ∈ es, e.2.2.2 = 0) →
      (logMany st id es).connected = true ∧
      conversationStream (logMany st id es) id =
        conversationStream st id ++
          es.map (fun e =>
            ({ event_type := e.1, data := e.2.1,
               timestamp := e.2.2.1 } : StreamEntry)) := by
  intro es
  induction es with
  | nil => intro st hc _; exact ⟨hc, by simp [logMany]⟩
  | cons e es ih =>
    intro st hc hz
    have hez : e.2.2.2 = 0 := hz e (List.mem_cons_self e es)
    have h1 := log_event_stream st hc id e.1 e.2.1 e.2.2.1 e.2.2.2
    have h2 := ih (log_conversation_event st id e.1 e.2.1 e.2.2.1 e.2.2.2).2
      h1.1 (fun x hx => hz x (List.mem_cons_of_mem e hx))
    refine ⟨h2.1, ?_⟩
    simp only [logMany, List.foldl_cons] at h2 ⊢
    rw [h2.2, h1.2, hez, xadd_maxlen_approx_no_trim]
    simp

theorem orch_placing_holder :
    ∀ s : OrchSys, OrchReachable s →
      ∀ i : Fin 2, s.phase i = .placing → s.holder = some i := by
  intro s hs
  induction hs with
  | init => intro i h; simp [orchInit] at h
  | step hr hstep ih =>
    intro i hi
    cases hstep with
    | request j hj =>
      by_cases hij : i = j
      · subst hij
        simp only [Function.update_same] at hi
        simp at hi
      · simp only [Function.update_noteq hij] at hi
        exact ih i hi
    | acquire j hj hh =>
      by_cases hij : i = j
      · subst hij; rfl
      · simp only [Function.update_noteq hij] at hi
        have h := ih i hi
        rw [hh] at h
        cases h
    | release j hj hh =>
      by_cases hij : i = j
      · subst hij
        simp only [Function.update_same] at hi
        simp at hi
      · simp only [Function.update_noteq hij] at hi
        have h := ih i hi
        rw [hh] at h
        exact absurd (Option.some.inj h).symm hij

/-- C1: for every appointment id, at most one call-placement attempt is
in flight at a time.  In every state reachable by interleaving two
concurrent `processAppointment` runs for the same appointment id, a
worker inside its call-placement attempt window holds the distributed
lock scoped to that id (the orchestrator acquires it before placing the
call), and consequently the two workers are never inside their
call-placement attempt windows simultaneously. -/
theorem C1_per_appointment_mutual_exclusion :
    ∀ s : OrchSys, OrchReachable s →
      (∀ i : Fin 2, s.phase i = .placing → s.holder = some i) ∧
      ¬(s.phase 0 = .placing ∧ s.phase 1 = .placing) := by
  intro s hs
  have hinv := orch_placing_holder s hs
  refine ⟨hinv, ?_⟩
  rintro ⟨h0, h1⟩
  have e0 := hinv 0 h0
  have e1 := hinv 1 h1
  rw [e0] at e1
  exact absurd (Option.some.inj e1) (by decide)

/-- Witness for C1 at the initial state. -/
theorem C1_per_appointment_mutual_exclusion_witness :
    ¬(orchInit.phase 0 = .placing ∧ orchInit.phase 1 = .placing) :=
  (C1_per_appointment_mutual_exclusion orchInit OrchReachable.init).2

/-- C2: for every appointment id and call-placement stub, with
`max_retries` attempts available (default 3): if the stub first succeeds
on attempt `k` with `1 ≤ k ≤ max_retries`, `place_call_with_retry`
short-circuits with `success = true` and `attempts = k`; if no attempt
succeeds (every attempt returns false or raises), it returns
`success = false`, `attempts = max_retries` and
`error = "Max retry exceeded"`.  Totality of the embedded function
records that the method itself never raises. -/
theorem C2_place_call_with_retry_contract (stub : CallStub)
    (apptId : String) (maxRetries k : Nat) :
    maxRetriesDefault = 3 ∧
    (1 ≤ k → k ≤ maxRetries → stub k = some true →
      (∀ j, 1 ≤ j → j < k → stub j ≠ some true) →
      place_call_with_retry stub apptId maxRetries =
        { success := true, appointment_id := apptId, attempts := k,
          error := none }) ∧
    ((∀ j, 1 ≤ j → j ≤ maxRetries → stub j ≠ some true) →
      place_call_with_retry stub apptId maxRetries =
        { success := false, appointment_id := apptId,
          attempts := maxRetries, error := some "Max retry exceeded" }) := by
  refine ⟨rfl, ?_, ?_⟩
  · intro h1 h2 hk hb
    exact placeCallAux_first_success stub apptId maxRetries maxRetries 1 k h1
      (by omega) hk (fun j hj1 hj2 => hb j hj1 hj2)
  · intro hb
    exact placeCallAux_exhaust stub apptId maxRetries maxRetries 1
      (fun j hj1 hj2 => hb j hj1 (by omega))

/-- Witness for C2: a stub that raises on attempt 1 and succeeds on
attempt 2 yields `success = true, attempts = 2`; an always-false stub
exhausts all 3 attempts. -/
theorem C2_place_call_with_retry_contract_witness :
    place_call_with_retry (fun j => if j = 1 then none else some (j == 2))
        "randevu_101" 3 =
      { success := true, appointment_id := "randevu_101", attempts := 2,
        error := none } ∧
    place_call_with_retry (fun _ => some false) "randevu_101" 3 =
      { success := false, appointment_id := "randevu_101", attempts := 3,
        error := some "Max retry exceeded" } :=
  ⟨(C2_place_call_with_retry_contract
        (fun j => if j = 1 then none else some (j == 2))
        "randevu_101" 3 2).2.1
      (by decide) (by decide) (by decide)
      (by
        intro j hj1 hj2
        have hj : j = 1 := by omega
        subst hj
        decide),
    (C2_place_call_with_retry_contract (fun _ => some false)
        "randevu_101" 3 2).2.2
      (by intro j hj1 hj2; decide)⟩

/-- C3 counterexample: an appointment whose room creation fails with a
connectivity error.  `main` records a failure result (`attempts = 0`,
`"Room creation failed"`) and moves to the next appointment WITHOUT
invoking the backup notifier (`start_calls.py` lines 426-435), refuting
"the backup notifier is invoked ... if and only if the appointment's
result is a failure - including both room-creation failure and
call-placement exhaustion". -/
theorem C3_backup_notifier_counterexample :
    (process_appointment (fun _ _ _ => ProviderOutcome.err "Connection refused")
        (fun _ => some true) true true sampleAppointment "t").countP
        isFailureRecord = 1 ∧
    (process_appointment (fun _ _ _ => ProviderOutcome.err "Connection refused")
        (fun _ => some true) true true sampleAppointment "t").countP
        isSmsEvent = 0 ∧
    (process_appointment (fun _ _ _ => ProviderOutcome.err "Connection refused")
        (fun _ => some true) true true sampleAppointment "t").countP
        isEmailEvent = 0 := by
  decide

/-- C3 amended: in every per-appointment pass, exactly one result is
recorded and it is the first event of the pass; the SMS and the email
backup are each invoked exactly once if and only if the pass reached
call placement and the placed call's result is a failure (on
room-creation failure a failure result is recorded but no notification
is sent); both notifications are dispatched after the result is
recorded; and the recorded result does not depend on whether either
notifier raises (notifier errors are swallowed, and the embedded pass is
a total function: no exception propagates). -/
theorem C3_backup_notifier_amended (provider : RoomProvider)
    (stub : CallStub) (smsOk emailOk : Bool) (a : Appointment)
    (now : String) :
    (process_appointment provider stub smsOk emailOk a now).countP
        isRecordedEvent = 1 ∧
    ((process_appointment provider stub smsOk emailOk a now).head?.map
        isRecordedEvent) = some true ∧
    (process_appointment provider stub smsOk emailOk a now).countP
        isSmsEvent =
      (if callPlacementFailed provider stub a now then 1 else 0) ∧
    (process_appointment provider stub smsOk emailOk a now).countP
        isEmailEvent =
      (if callPlacementFailed provider stub a now then 1 else 0) ∧
    (process_appointment provider stub smsOk emailOk a now).filter
        isRecordedEvent =
      (process_appointment provider stub true true a now).filter
        isRecordedEvent := by
  cases hroom : create_room_for_appointment provider a now with
  | none =>
    simp [process_appointment, hroom, callPlacementFailed, isRecordedEvent,
      isSmsEvent, isEmailEvent, List.countP_cons]
  | some room =>
    cases hsucc : (place_call_with_retry stub a.appointment_id
        maxRetriesDefault).success with
    | true =>
      simp [process_appointment, hroom, hsucc, callPlacementFailed,
        isRecordedEvent, isSmsEvent, isEmailEvent, List.countP_cons]
    | false =>
      simp [process_appointment, hroom, hsucc, callPlacementFailed,
        isRecordedEvent, isSmsEvent, isEmailEvent, List.countP_cons,
        List.filter]

/-- C4 counterexample: the default of the `timeout` parameter of
`StateManager.lock` is 10.0 seconds (`state_manager.py` line 237), not
60 seconds. -/
theorem C4_lock_timeout_counterexample : lockDefaultTimeout ≠ 60 := by
  decide

/-- C4 amended: lock acquisition blocks for a bounded wait whose default
timeout is 10 seconds (not 60), and failure to acquire within the
timeout raises a `TimeoutError` naming the resource - a distinguishable
timeout condition, not a silent failure or an indefinite wait. -/
theorem C4_lock_timeout_amended {α : Type} (st : SMState)
    (resource : String) (releaseRaises : Bool) (body : Except Err α)
    (hc : st.connected = true) :
    lockDefaultTimeout = 10 ∧
    (lockCM st resource false releaseRaises body).1 =
      Except.error (Err.timeoutError ("Could not acquire lock: " ++ resource)) := by
  refine ⟨rfl, ?_⟩
  simp [lockCM, hc]

/-- Witness for C4 amended on a connected state. -/
theorem C4_lock_timeout_amended_witness :
    lockDefaultTimeout = 10 ∧
    (lockCM connectedState "call:randevu_101" false false
        (Except.ok ())).1 =
      Except.error
        (Err.timeoutError ("Could not acquire lock: " ++ "call:randevu_101")) :=
  C4_lock_timeout_amended connectedState "call:randevu_101" false
    (Except.ok ()) rfl

/-- C5: for every use of `StateManager.lock` on a connected manager, the
release of the lock key is attempted on every exit path - normal body
completion, a body returning a failure value, a body raising, and even
an acquisition timeout - and the release itself never raises: whether or
not the underlying `release()` call raises (for instance because the
lock already expired server-side), the guarded block's outcome is
returned unchanged, and an acquisition timeout surfaces as the
`TimeoutError`, never as a release error. -/
theorem C5_lock_release_on_every_path {α : Type} (st : SMState)
    (resource : String) (acquireOk releaseRaises : Bool)
    (body : Except Err α) (hc : st.connected = true) :
    LockEvent.releaseAttempted ("lock:" ++ resource) ∈
      (lockCM st resource acquireOk releaseRaises body).2.2 ∧
    (acquireOk = true →
      (lockCM st resource acquireOk releaseRaises body).1 = body) ∧
    (acquireOk = false →
      (lockCM st resource acquireOk releaseRaises body).1 =
        Except.error
          (Err.timeoutError ("Could not acquire lock: " ++ resource))) := by
  cases acquireOk with
  | true =>
    refine ⟨?_, fun _ => ?_, fun h => absurd h (by decide)⟩
    · simp [lockCM, hc]
    · simp [lockCM, hc]
  | false =>
    refine ⟨?_, fun h => absurd h (by decide), fun _ => ?_⟩
    · simp [lockCM, hc]
    · simp [lockCM, hc]

/-- Witness for C5: a raising body together with a raising release on a
connected state; the body's exception is returned, the release was
attempted. -/
theorem C5_lock_release_on_every_path_witness :
    LockEvent.releaseAttempted ("lock:" ++ "call:randevu_101") ∈
      (lockCM connectedState "call:randevu_101" true true
        (Except.error (Err.runtimeError "boom") : Except Err Unit)).2.2 ∧
    (lockCM connectedState "call:randevu_101" true true
        (Except.error (Err.runtimeError "boom") : Except Err Unit)).1 =
      Except.error (Err.runtimeError "boom") :=
  ⟨(C5_lock_release_on_every_path connectedState "call:randevu_101" true
      true (Except.error (Err.runtimeError "boom")) rfl).1,
    (C5_lock_release_on_every_path connectedState "call:randevu_101" true
      true (Except.error (Err.runtimeError "boom")) rfl).2.1 rfl⟩

/-- C6: room provisioning is idempotent.  For every appointment the
requested room name is deterministically
`confirmation_call_<appointment_id>` (any successful return is exactly
that name), and when the provider reports that the room already exists
(an exception whose lowercased message contains "already exists"),
`create_room_for_appointment` returns that same room name as a success -
so a second call for the same appointment id yields the same name with
no error. -/
theorem C6_idempotent_room_creation (a : Appointment)
    (p1 p2 : RoomProvider) (now1 now2 : String) (e n : String) :
    (create_room_for_appointment p1 a now1 = none ∨
      create_room_for_appointment p1 a now1 =
        some ("confirmation_call_" ++ a.appointment_id)) ∧
    (p2 1 ("confirmation_call_" ++ a.appointment_id)
        (roomMetadataPairs a now2) = ProviderOutcome.err e →
      strContains (strToLower e) "already exists" = true →
      create_room_for_appointment p1 a now1 = some n →
      create_room_for_appointment p2 a now2 = some n) := by
  constructor
  · cases hp : p1 1 ("confirmation_call_" ++ a.appointment_id)
        (roomMetadataPairs a now1) with
    | ok => right; simp [create_room_for_appointment, hp]
    | err msg =>
      cases hball : strContains (strToLower msg) "already exists" with
      | true => right; simp [create_room_for_appointment, hp, hball]
      | false => left; simp [create_room_for_appointment, hp, hball]
  · intro hp2 hmsg h1
    have hn : n = "confirmation_call_" ++ a.appointment_id := by
      cases hp : p1 1 ("confirmation_call_" ++ a.appointment_id)
          (roomMetadataPairs a now1) with
      | ok =>
        simp [create_room_for_appointment, hp] at h1
        exact h1.symm
      | err msg =>
        cases hball : strContains (strToLower msg) "already exists" with
        | true =>
          simp [create_room_for_appointment, hp, hball] at h1
          exact h1.symm
        | false =>
          simp [create_room_for_appointment, hp, hball] at h1
    subst hn
    simp [create_room_for_appointment, hp2, hmsg]

/-- Witness for C6: first call succeeds; the second provider reports
"Room already exists" and the second call returns the same name. -/
theorem C6_idempotent_room_creation_witness :
    create_room_for_appointment
        (fun _ _ _ => ProviderOutcome.err "Room already exists")
        sampleAppointment "t2" =
      some "confirmation_call_randevu_101" :=
  (C6_idempotent_room_creation sampleAppointment
      (fun _ _ _ => ProviderOutcome.ok)
      (fun _ _ _ => ProviderOutcome.err "Room already exists")
      "t1" "t2" "Room already exists" "confirmation_call_randevu_101").2
    (by decide) (by decide) (by decide)

/-- C7 counterexample: a provider whose first invocation raises a
transient connectivity error but whose second invocation would succeed.
The claim's exponential-backoff retry (up to 3 tries) would recover;
`create_room_for_appointment` invokes the provider exactly once and
returns `none` immediately (`start_calls.py` lines 103, 114-120 - there
is no retry loop around room creation). -/
theorem C7_room_creation_backoff_counterexample :
    create_room_for_appointment
        (fun k _ _ => if k = 1 then ProviderOutcome.err "Connection refused"
                      else ProviderOutcome.ok)
        sampleAppointment "t" = none ∧
    (fun k _ _ => if k = 1 then ProviderOutcome.err "Connection refused"
                  else ProviderOutcome.ok : RoomProvider) 2
        "confirmation_call_randevu_101" [] = ProviderOutcome.ok := by
  decide

/-- C7 amended: room creation is not retried at all.  The provider is
invoked once; any provisioning error whose message does not contain
"already exists" (in particular a transient connectivity error)
immediately yields `none`, which the orchestration pass converts to the
terminal failure record (`attempts = 0`,
error `"Room creation failed"`).  The only retry loop is the
call-placement one, with its fixed delay (`retry_delay = 5`,
`max_retries = 3`) - no exponential backoff is applied at either
stage. -/
theorem C7_room_creation_no_retry_amended (a : Appointment) (now : String)
    (p : RoomProvider) (stub : CallStub) (smsOk emailOk : Bool) (e : String)
    (h1 : p 1 ("confirmation_call_" ++ a.appointment_id)
        (roomMetadataPairs a now) = ProviderOutcome.err e)
    (h2 : strContains (strToLower e) "already exists" = false) :
    create_room_for_appointment p a now = none ∧
    process_appointment p stub smsOk emailOk a now =
      [ .recorded { success := false, appointment_id := a.appointment_id,
                    attempts := 0, error := some "Room creation failed" } ] ∧
    retryDelayDefault = 5 ∧ maxRetriesDefault = 3 := by
  have hnone : create_room_for_appointment p a now = none := by
    simp [create_room_for_appointment, h1, h2]
  exact ⟨hnone, by simp [process_appointment, hnone], rfl, rfl⟩

/-- Witness for C7 amended at a concrete connectivity error. -/
theorem C7_room_creation_no_retry_amended_witness :
    create_room_for_appointment
        (fun _ _ _ => ProviderOutcome.err "Connection refused")
        sampleAppointment "t" = none ∧
    process_appointment
        (fun _ _ _ => ProviderOutcome.err "Connection refused")
        (fun _ => some true) true true sampleAppointment "t" =
      [ .recorded { success := false, appointment_id := "randevu_101",
                    attempts := 0, error := some "Room creation failed" } ] ∧
    retryDelayDefault = 5 ∧ maxRetriesDefault = 3 :=
  C7_room_creation_no_retry_amended sampleAppointment "t"
    (fun _ _ _ => ProviderOutcome.err "Connection refused")
    (fun _ => some true) true true "Connection refused"
    (by decide) (by decide)

/-- C8 counterexample: the metadata payload handed to the room
provisioner does NOT contain a `time` field; its keys are
`appointment_id`, `customer_name`, `task`, `created_at`
(`start_calls.py` lines 89-94). -/
theorem C8_room_metadata_counterexample :
    ¬((roomMetadataPairs sampleAppointment "2025-10-04T10:00:00").map
        Prod.fst =
      ["appointment_id", "customer_name", "time", "task", "created_at"]) := by
  decide

/-- C8 amended: for every appointment, the room metadata payload is a
JSON object containing exactly the fields `appointment_id`,
`customer_name`, `task` (the fixed string `"confirm_appointment"`) and
`created_at` (the ISO-8601 creation timestamp) - there is no `time`
field. -/
theorem C8_room_metadata_amended (a : Appointment) (now : String) :
    (roomMetadataPairs a now).map Prod.fst =
      ["appointment_id", "customer_name", "task", "created_at"] ∧
    (roomMetadataPairs a now).lookup "appointment_id" =
      some a.appointment_id ∧
    (roomMetadataPairs a now).lookup "customer_name" =
      some a.customer_name ∧
    (roomMetadataPairs a now).lookup "task" = some "confirm_appointment" ∧
    (roomMetadataPairs a now).lookup "created_at" = some now := by
  refine ⟨rfl, ?_, ?_, ?_, ?_⟩ <;> simp [roomMetadataPairs, List.lookup]

set_option maxRecDepth 4000 in
/-- C9: code bug.  The spec (and the source's own comment at
`state_manager.py` line 188, "MAXLEN keeps stream bounded (last 1000
events)") requires the per-appointment log to hold at most 1000 entries
with FIFO eviction, so that appending 1001 events leaves exactly 1000
with the oldest evicted.  The `xadd(stream_key, entry, maxlen=1000)`
call at lines 189-193, however, leaves redis-py's `approximate`
parameter at its default `True` and therefore issues
`XADD ... MAXLEN ~ 1000`: the server trims lazily (whole macro-nodes
only) and guarantees only a lower bound of 1000 retained entries.
Evaluated at the failing input - 1001 events appended to an initially
empty log while the server's lazy trimming has not fired (`trim = 0` at
every call, which `MAXLEN ~` permits) - the log holds all 1001 entries
and the oldest entry is still its head, not evicted. -/
theorem C9_event_log_bound_code_bug :
    (conversationStream
        (logMany connectedState "randevu_101"
          ((List.range 1001).map fun i =>
            ("call_attempt", "d", toString i, 0)))
        "randevu_101").length = 1001 ∧
    (conversationStream
        (logMany connectedState "randevu_101"
          ((List.range 1001).map fun i =>
            ("call_attempt", "d", toString i, 0)))
        "randevu_101").head? =
      some { event_type := "call_attempt", data := "d",
             timestamp := toString 0 } := by
  have h := logMany_no_trim "randevu_101"
    ((List.range 1001).map fun i => ("call_attempt", "d", toString i, 0))
    connectedState rfl
    (by
      intro e he
      rw [List.mem_map] at he
      obtain ⟨i, _, rfl⟩ := he
      rfl)
  constructor
  · rw [h.2]
    simp [conversationStream, connectedState, emptyRedis]
  · rw [h.2]
    simp only [conversationStream, connectedState, emptyRedis,
      List.nil_append]
    decide

/-- C10: every public `StateManager` operation invoked before `connect()`
has succeeded (or after `disconnect()`) raises
`RuntimeError("StateManager not connected. Call connect() first.")` and
performs no other effect: the state is returned unchanged and, for the
lock, no lock event happens. -/
theorem C10_requires_connection (st : SMState)
    (hc : st.connected = false) :
    (∀ id data, cache_appointment st id data =
      (Except.error (Err.runtimeError ensureConnectedMsg), st)) ∧
    (∀ id, get_cached_appointment st id =
      (Except.error (Err.runtimeError ensureConnectedMsg), st)) ∧
    (∀ id, invalidate_appointment st id =
      (Except.error (Err.runtimeError ensureConnectedMsg), st)) ∧
    (∀ id ty d now trim, log_conversation_event st id ty d now trim =
      (Except.error (Err.runtimeError ensureConnectedMsg), st)) ∧
    (∀ id n, get_conversation_events st id n =
      (Except.error (Err.runtimeError ensureConnectedMsg), st)) ∧
    (∀ (α : Type) r aok rr (body : Except Err α), lockCM st r aok rr body =
      (Except.error (Err.runtimeError ensureConnectedMsg), st, [])) ∧
    (∀ id ns cb, publish_status_update st id ns cb =
      (Except.error (Err.runtimeError ensureConnectedMsg), st)) ∧
    (∀ m v, increment_call_metric st m v =
      (Except.error (Err.runtimeError ensureConnectedMsg), st)) ∧
    get_call_metrics st =
      (Except.error (Err.runtimeError ensureConnectedMsg), st) := by
  refine ⟨?_, ?_, ?_, ?_, ?_, ?_, ?_, ?_, ?_⟩
  · intro id data; simp [cache_appointment, hc, notConnectedErr]
  · intro id; simp [get_cached_appointment, hc, notConnectedErr]
  · intro id; simp [invalidate_appointment, hc, notConnectedErr]
  · intro id ty d now trim; simp [log_conversation_event, hc, notConnectedErr]
  · intro id n; simp [get_conversation_events, hc, notConnectedErr]
  · intro α r aok rr body; simp [lockCM, hc, notConnectedErr]
  · intro id ns cb; simp [publish_status_update, hc, notConnectedErr]
  · intro m v; simp [increment_call_metric, hc, notConnectedErr]
  · simp [get_call_metrics, hc, notConnectedErr]

/-- Witness for C10 on a disconnected state, one invocation per public
operation. -/
theorem C10_requires_connection_witness :
    cache_appointment disconnectedState "randevu_101" "d" =
      (Except.error (Err.runtimeError ensureConnectedMsg),
        disconnectedState) ∧
    get_cached_appointment disconnectedState "randevu_101" =
      (Except.error (Err.runtimeError ensureConnectedMsg),
        disconnectedState) ∧
    invalidate_appointment disconnectedState "randevu_101" =
      (Except.error (Err.runtimeError ensureConnectedMsg),
        disconnectedState) ∧
    log_conversation_event disconnectedState "randevu_101" "greeting" "d"
        "2025-10-04T10:00:00" 0 =
      (Except.error (Err.runtimeError ensureConnectedMsg),
        disconnectedState) ∧
    get_conversation_events disconnectedState "randevu_101" 5 =
      (Except.error (Err.runtimeError ensureConnectedMsg),
        disconnectedState) ∧
    lockCM disconnectedState "call:randevu_101" true false
        (Except.ok () : Except Err Unit) =
      (Except.error (Err.runtimeError ensureConnectedMsg),
        disconnectedState, []) ∧
    publish_status_update disconnectedState "randevu_101" "Onaylandı"
        "agent" =
      (Except.error (Err.runtimeError ensureConnectedMsg),
        disconnectedState) ∧
    increment_call_metric disconnectedState "confirmed" 1 =
      (Except.error (Err.runtimeError ensureConnectedMsg),
        disconnectedState) ∧
    get_call_metrics disconnectedState =
      (Except.error (Err.runtimeError ensureConnectedMsg),
        disconnectedState) := by
  have h := C10_requires_connection disconnectedState rfl
  exact ⟨h.1 _ _, h.2.1 _, h.2.2.1 _, h.2.2.2.1 _ _ _ _ _, h.2.2.2.2.1 _ _,
    h.2.2.2.2.2.1 Unit _ _ _ _, h.2.2.2.2.2.2.1 _ _ _,
    h.2.2.2.2.2.2.2.1 _ _, h.2.2.2.2.2.2.2.2⟩

end VoiceAgent
